import Mathlib

/-!
# TuneTalez mobile app — verification of the media-URL resolver and audio player

Shallow embedding of the core of the repository:

* `src/r2/config.ts` and `src/r2/services.ts` — the media resource resolver
  (pure string composition mapping possibly-partial media references to
  absolute URLs, with category-specific fallbacks);
* `src/components/AudioPlayer.tsx` — the audio playback controller: React
  component state, the `expo-av` sound resource lifecycle, the load/unload
  effect, the 1-second polling effect, and the transport controls.

JavaScript strings are modelled as Lean `String`; `undefined`-able strings as
`Option String` (`!url` is falsy exactly on `none` and `some ""`).
`url.startsWith('http')` is modelled by `strStartsWith`, a character-list
prefix test.
-/

set_option autoImplicit false

namespace TuneTalez

/-- JavaScript `s.startsWith(p)`: `p`'s characters are a prefix of `s`'s. -/
def strStartsWith (s p : String) : Bool :=
  p.toList.isPrefixOf s.toList

/-! ## `src/r2/config.ts` -/

/-- Constant `R2_PUBLIC_URL` from `src/r2/config.ts`. -/
def R2_PUBLIC_URL : String := "https://pub-c6afb0e9c6e14b0f9d9f4aec83b93b1b.r2.dev"

/-- Bucket name `R2_BUCKET.AUDIO`. -/
def R2_AUDIO_BUCKET : String := "tunetalez-audio"

/-- Bucket name `R2_BUCKET.IMAGES`. -/
def R2_BUCKET_IMAGES : String := "tunetalez-images"

/-- Bucket name `R2_BUCKET.THUMBNAILS`. -/
def R2_BUCKET_THUMBNAILS : String := "tunetalez-thumbnails"

/-- Bucket name `R2_BUCKET.PDFS`. -/
def R2_BUCKET_PDFS : String := "tunetalez-pdfs"

/-- Function `getR2PublicUrl` from `src/r2/config.ts`: return `path` unchanged when it
already starts with `"http"`, otherwise prepend the public base URL. -/
def getR2PublicUrl (path : String) : String :=
  if strStartsWith path "http" then path
  else R2_PUBLIC_URL ++ "/" ++ path

/-- Function `getThumbnailUrl` from `src/r2/config.ts`. -/
def getThumbnailUrl (filename : String) : String :=
  getR2PublicUrl (R2_BUCKET_THUMBNAILS ++ "/" ++ filename)

/-- Function `getAudioUrl` from `src/r2/config.ts`. -/
def getAudioUrl (filename : String) : String :=
  getR2PublicUrl (R2_AUDIO_BUCKET ++ "/" ++ filename)

/-- Function `getImageUrl` from `src/r2/config.ts`. -/
def getImageUrl (filename : String) : String :=
  getR2PublicUrl (R2_BUCKET_IMAGES ++ "/" ++ filename)

/-- Function `getPdfUrl` from `src/r2/config.ts`. -/
def getPdfUrl (filename : String) : String :=
  getR2PublicUrl (R2_BUCKET_PDFS ++ "/" ++ filename)

/-! ## `src/r2/services.ts` -/

/-- Function `processThumbnailUrl` from `src/r2/services.ts`: placeholder on a falsy
reference, unchanged when it starts with `"http"`, otherwise resolved into the
thumbnails bucket. -/
def processThumbnailUrl : Option String → String
  | none => "https://via.placeholder.com/150x200/333333/FFFFFF?text=No+Cover"
  | some u =>
    if u = "" then "https://via.placeholder.com/150x200/333333/FFFFFF?text=No+Cover"
    else if strStartsWith u "http" then u
    else getThumbnailUrl u

/-- Function `processAudioUrl` from `src/r2/services.ts`: `undefined` on a falsy
reference, unchanged when it starts with `"http"`, otherwise resolved into the
audio bucket. -/
def processAudioUrl : Option String → Option String
  | none => none
  | some u =>
    if u = "" then none
    else if strStartsWith u "http" then some u
    else some (getAudioUrl u)

/-- Function `processImageUrl` from `src/r2/services.ts`. -/
def processImageUrl : Option String → String
  | none => "https://via.placeholder.com/400x300/333333/FFFFFF?text=No+Image"
  | some u =>
    if u = "" then "https://via.placeholder.com/400x300/333333/FFFFFF?text=No+Image"
    else if strStartsWith u "http" then u
    else getImageUrl u

/-- Function `processPdfUrl` from `src/r2/services.ts`. -/
def processPdfUrl : Option String → Option String
  | none => none
  | some u =>
    if u = "" then none
    else if strStartsWith u "http" then some u
    else some (getPdfUrl u)

/-- Spec-side notion, for comparison with the code's `startsWith('http')`
test: the reference "already has a URI scheme", i.e. it begins with a
non-empty scheme (letter first, then letters/digits/`+`/`-`/`.`) followed by
a colon. -/
def hasUriScheme (s : String) : Bool :=
  let pre := s.toList.takeWhile (fun c => c ≠ ':')
  decide (pre.length < s.toList.length) &&
    (match pre with
     | [] => false
     | c :: rest =>
       c.isAlpha && rest.all (fun d => d.isAlpha || d.isDigit || d = '+' || d = '-' || d = '.'))

/-! ## `src/types/book.ts` and `processBookUrls` -/

/-- Values of the `status` field of a `Book` (`'draft' | 'published' | 'archived'`). -/
inductive BookStatus where
  | draft
  | published
  | archived
  deriving Repr, DecidableEq

/-- The `Book` record of `src/types/book.ts`. Optional fields are `Option`;
`Date | string` timestamps are opaque strings here. -/
structure Book where
  id : String
  title : String
  author : String
  description : Option String
  content : Option String
  thumbnailUrl : Option String
  audioUrl : Option String
  createdAt : String
  updatedAt : Option String
  tags : Option (List String)
  category : Option String
  likes : Option Nat
  saves : Option Nat
  isPublished : Option Bool
  isDeleted : Option Bool
  userId : Option String
  readCount : Option Nat
  status : Option BookStatus
  deriving Repr, DecidableEq

/-- Function `processBookUrls` from `src/r2/services.ts`: spread the book and rewrite
`thumbnailUrl` and `audioUrl` (the latter only when truthy, else
`undefined`). -/
def processBookUrls (book : Book) : Book :=
  { book with
    thumbnailUrl := some (processThumbnailUrl book.thumbnailUrl),
    audioUrl :=
      match book.audioUrl with
      | none => none
      | some a => if a = "" then none else processAudioUrl (some a) }

/-! ## `src/components/AudioPlayer.tsx`

The component is modelled as a small-step state machine.  A `World` carries
the React state of one `AudioPlayer` instance (`sound`, `isPlaying`,
`isLoading`, `position`, `duration`, `error`), the engine side (the set of
`expo-av` sound objects created by `Audio.Sound.createAsync` and not yet
unloaded, keyed by an allocation counter), the in-flight `loadSound` calls,
and the bookkeeping of the two `useEffect`s:

* the load/unload effect (deps `[audioUrl]`): its cleanup closure captures
  the `sound` state *of the render at which the effect ran* (`effectSound`);
* the polling effect (deps `[isPlaying, sound]`): `intervalActive` is the
  1-second interval, `depPlaying`/`depSound` are the deps it was registered
  with; after each committed render the effect re-runs exactly when a dep
  changed (`commitPoll`).

`loadSound` has two atomic phases: `startLoad` (the synchronous prefix —
`setIsLoading(true)`, `setError(null)`, `await sound.unloadAsync()` of the
*captured* sound — through the start of `createAsync`) and `finishLoadAct`
(the resolution of `createAsync`: on success a fresh sound object is
allocated, `setSound`/`setIsLoading(false)` run and the initial status
callback fires; on failure `setError('Failed to load audio')`). Interleaving
the `finishLoadAct` events in any order against other events realises the
schedules of the single-threaded event loop. -/

/-- An `expo-av` sound object: the source URI it was created from and its
native position/duration/playing status. -/
structure SoundObj where
  url : String
  pos : Nat
  dur : Nat
  playing : Bool
  deriving Repr, DecidableEq

/-- First binding of key `k` in an association list of sound objects. -/
def lookupSound (k : Nat) : List (Nat × SoundObj) → Option SoundObj
  | [] => none
  | (k2, o) :: rest => if k2 = k then some o else lookupSound k rest

/-- Replace the value bound to key `k`. -/
def setSoundObj (k : Nat) (o : SoundObj) : List (Nat × SoundObj) → List (Nat × SoundObj)
  | [] => []
  | (k2, o2) :: rest =>
    if k2 = k then (k2, o) :: rest else (k2, o2) :: setSoundObj k o rest

/-- Remove every binding of key `k` (`unloadAsync`). -/
def removeSound (k : Nat) (l : List (Nat × SoundObj)) : List (Nat × SoundObj) :=
  l.filter (fun p => p.1 ≠ k)

/-- The complete state of one mounted `AudioPlayer` instance together with
the engine-side resources. -/
structure World where
  /-- React state `sound` (the id of the held `Audio.Sound`, if any). -/
  sound : Option Nat
  /-- React state `isPlaying`. -/
  isPlaying : Bool
  /-- React state `isLoading`. -/
  isLoading : Bool
  /-- React state `position` (millis snapshot). -/
  position : Nat
  /-- React state `duration` (millis snapshot, `0` when unknown). -/
  duration : Nat
  /-- React state `error`. -/
  error : Option String
  /-- Engine side: sound objects created and not yet unloaded. -/
  objs : List (Nat × SoundObj)
  /-- Next fresh sound id. -/
  nextId : Nat
  /-- In-flight `loadSound` calls past their synchronous prefix:
  `(url, sound captured at call time)`. -/
  pending : List (String × Option Nat)
  /-- The `sound` captured by the load effect's cleanup closure. -/
  effectSound : Option Nat
  /-- The 1-second polling interval is live. -/
  intervalActive : Bool
  /-- The `isPlaying` dep the polling effect was registered with. -/
  depPlaying : Bool
  /-- The `sound` dep the polling effect was registered with. -/
  depSound : Option Nat
  /-- The component is mounted. -/
  mounted : Bool
  deriving Repr, DecidableEq

/-- Callback `onPlaybackStatusUpdate` on a loaded status: refresh position, duration
(`durationMillis || 0`) and `isPlaying`. -/
def onStatusLoaded (pos dur : Nat) (playing : Bool) (w : World) : World :=
  { w with position := pos, duration := dur, isPlaying := playing }

/-- Callback `onPlaybackStatusUpdate` on an unloaded status carrying an error: set the
error message; `isPlaying` is *not* touched. -/
def onStatusError (msg : String) (w : World) : World :=
  { w with error := some ("Playback error: " ++ msg) }

/-- The engine fires the status callback for sound `sid` (if loaded). -/
def fireStatus (sid : Nat) (w : World) : World :=
  match lookupSound sid w.objs with
  | none => w
  | some o => onStatusLoaded o.pos o.dur o.playing w

/-- Engine call `sound.playAsync()`: `none` models a throw (sound not loaded). -/
def playAsync (sid : Nat) (w : World) : Option World :=
  match lookupSound sid w.objs with
  | none => none
  | some o =>
    let o2 := { o with playing := true }
    some (fireStatus sid { w with objs := setSoundObj sid o2 w.objs })

/-- Engine call `sound.pauseAsync()`. -/
def pauseAsync (sid : Nat) (w : World) : Option World :=
  match lookupSound sid w.objs with
  | none => none
  | some o =>
    let o2 := { o with playing := false }
    some (fireStatus sid { w with objs := setSoundObj sid o2 w.objs })

/-- Engine call `sound.stopAsync()`: halts output and resets the native position to 0. -/
def stopAsync (sid : Nat) (w : World) : Option World :=
  match lookupSound sid w.objs with
  | none => none
  | some o =>
    let o2 := { o with playing := false, pos := 0 }
    some (fireStatus sid { w with objs := setSoundObj sid o2 w.objs })

/-- Engine call `sound.setPositionAsync(p)`. -/
def setPositionAsync (sid : Nat) (p : Nat) (w : World) : Option World :=
  match lookupSound sid w.objs with
  | none => none
  | some o =>
    let o2 := { o with pos := p }
    some (fireStatus sid { w with objs := setSoundObj sid o2 w.objs })

/-- Synchronous prefix of `loadSound`: `setIsLoading(true)`, `setError(null)`,
unload the sound captured at call time, and start `createAsync` (recorded as a
pending load). The `sound` state itself is not cleared. -/
def startLoad (u : String) (w : World) : World :=
  let w1 := { w with isLoading := true, error := none }
  let w2 :=
    match w1.sound with
    | some s => { w1 with objs := removeSound s w1.objs }
    | none => w1
  { w2 with pending := w2.pending ++ [(u, w.sound)] }

/-- Resolution of the `i`-th in-flight `createAsync`. `res = some d` is a
successful load of a track of duration `d`: a fresh sound object is
allocated, `setSound`/`setIsLoading(false)` run, and the initial status
callback fires. `res = none` is the catch branch:
`setError('Failed to load audio')`, `setIsLoading(false)`. -/
def finishLoadAct (i : Nat) (res : Option Nat) (w : World) : World :=
  match w.pending.get? i with
  | none => w
  | some (u, _captured) =>
    let w1 := { w with pending := w.pending.eraseIdx i }
    match res with
    | some d =>
      let o : SoundObj := { url := u, pos := 0, dur := d, playing := false }
      let w2 := { w1 with
        objs := (w1.nextId, o) :: w1.objs,
        sound := some w1.nextId,
        nextId := w1.nextId + 1,
        isLoading := false }
      onStatusLoaded 0 d false w2
    | none =>
      { w1 with error := some "Failed to load audio", isLoading := false }

/-- Handler `togglePlayPause`: no-op without a held sound; pause when playing;
otherwise seek to 0 first when the snapshot says `position >= duration > 0`,
then play. A throwing engine call is caught and sets the error state. -/
def togglePlayPause (w : World) : World :=
  match w.sound with
  | none => w
  | some sid =>
    let attempt : Option World :=
      if w.isPlaying then pauseAsync sid w
      else if w.position ≥ w.duration ∧ 0 < w.duration then
        (setPositionAsync sid 0 w).bind (playAsync sid)
      else playAsync sid w
    match attempt with
    | some w2 => w2
    | none => { w with error := some "Failed to play/pause audio" }

/-- Handler `stopAudio`: no-op without a held sound; `stopAsync` then
`setPositionAsync(0)`; a throw is caught and only logged. -/
def stopAudio (w : World) : World :=
  match w.sound with
  | none => w
  | some sid =>
    match (stopAsync sid w).bind (setPositionAsync sid 0) with
    | some w2 => w2
    | none => w

/-- Handler `restartAudio`: seek to 0, and start playback when not already playing. -/
def restartAudio (w : World) : World :=
  match w.sound with
  | none => w
  | some sid =>
    let attempt : Option World :=
      (setPositionAsync sid 0 w).bind (fun w1 =>
        if w1.isPlaying then some w1 else playAsync sid w1)
    match attempt with
    | some w2 => w2
    | none => w

/-- Run of the load effect's cleanup closure: unload the captured sound. -/
def effectCleanup (w : World) : World :=
  match w.effectSound with
  | some s => { w with objs := removeSound s w.objs }
  | none => w

/-- Teardown (unmount): the load effect's cleanup runs with its captured
sound, and the polling effect's cleanup clears the interval. -/
def unmountAct (w : World) : World :=
  let w1 := effectCleanup w
  { w1 with mounted := false, intervalActive := false }

/-- On an `audioUrl` prop change: the previous load effect's cleanup runs, the
effect re-registers (capturing the current `sound`), and `loadSound` runs. -/
def changeUrlAct (u : String) (w : World) : World :=
  let w1 := effectCleanup w
  let w2 := { w1 with effectSound := w1.sound }
  startLoad u w2

/-- Commit of the polling effect after a render: when a dep changed, the old
interval is cleared and the effect re-runs, starting the interval exactly
when `isPlaying`. -/
def commitPoll (w : World) : World :=
  if w.isPlaying ≠ w.depPlaying ∨ w.sound ≠ w.depSound then
    { w with intervalActive := w.isPlaying, depPlaying := w.isPlaying, depSound := w.sound }
  else w

/-- External events of one component instance. -/
inductive Ev where
  /-- The `audioUrl` prop changes to `url`. -/
  | changeUrl (url : String)
  /-- The component unmounts (teardown). -/
  | unmount
  /-- The `i`-th in-flight `createAsync` resolves (`some d` success of
  duration `d`, `none` failure). -/
  | finishLoad (i : Nat) (res : Option Nat)
  /-- A native loaded-status callback. -/
  | statusLoaded (pos dur : Nat) (playing : Bool)
  /-- A native error-status callback. -/
  | statusError (msg : String)
  /-- The user taps play/pause. -/
  | toggle
  /-- The user taps stop. -/
  | stopBtn
  /-- The user taps restart. -/
  | restartBtn
  deriving Repr, DecidableEq

/-- Action of one event (before the render/effect commit). -/
def act : Ev → World → World
  | .changeUrl u, w => changeUrlAct u w
  | .unmount, w => unmountAct w
  | .finishLoad i res, w => finishLoadAct i res w
  | .statusLoaded p d pl, w => onStatusLoaded p d pl w
  | .statusError m, w => onStatusError m w
  | .toggle, w => togglePlayPause w
  | .stopBtn, w => stopAudio w
  | .restartBtn, w => restartAudio w

/-- One step: while mounted, the event's action followed by the polling
effect's commit; an unmounted instance receives no further events. -/
def step (e : Ev) (w : World) : World :=
  if w.mounted then
    if (act e w).mounted then commitPoll (act e w) else act e w
  else w

/-- The freshly mounted state before any effect: all React state at its
`useState` initial value. -/
def initialWorld : World :=
  { sound := none, isPlaying := false, isLoading := false, position := 0,
    duration := 0, error := none, objs := [], nextId := 0, pending := [],
    effectSound := none, intervalActive := false, depPlaying := false,
    depSound := none, mounted := true }

/-- Mount with prop `audioUrl = u`: both effects run for the first time —
the load effect captures `sound` (still `null`) for its cleanup and calls
`loadSound`; the polling effect registers its deps. -/
def mountWorld (u : String) : World :=
  commitPoll (startLoad u { initialWorld with effectSound := none })

/-- A whole run: mount with `audioUrl = u`, then the events of `es`. -/
def run (u : String) (es : List Ev) : World :=
  es.foldl (fun w e => step e w) (mountWorld u)

/-- The source URI of the held, still-loaded sound, if any. -/
def heldUrl (w : World) : Option String :=
  match w.sound with
  | none => none
  | some sid => (lookupSound sid w.objs).map (fun o => o.url)

/-- The controller-lifecycle fields (`mounted`, the polling effect's deps and
interval) are untouched between one event's action and the next commit. -/
def ctlFrame (w w' : World) : Prop :=
  w'.mounted = w.mounted ∧ w'.depPlaying = w.depPlaying ∧
    w'.depSound = w.depSound ∧ w'.intervalActive = w.intervalActive

/-- Invariant tying the polling interval to `isPlaying`: while mounted the
interval and the registered deps agree with the current state, and after
unmount the interval is gone. -/
def PollInv (w : World) : Prop :=
  (w.mounted = true →
      w.intervalActive = w.depPlaying ∧ w.depPlaying = w.isPlaying ∧ w.depSound = w.sound) ∧
    (w.mounted = false → w.intervalActive = false)

/-- A track that has played to its end (`pos = dur = 100`), not playing. -/
def soundAtEnd : SoundObj :=
  { url := "https://x/a.mp3", pos := 100, dur := 100, playing := false }

/-- A held and loaded sound at end of track: concrete input for replay. -/
def worldAtEnd : World :=
  { sound := some 0, isPlaying := false, isLoading := false, position := 100,
    duration := 100, error := none, objs := [(0, soundAtEnd)], nextId := 1,
    pending := [], effectSound := some 0, intervalActive := false,
    depPlaying := false, depSound := some 0, mounted := true }

/-- A track in mid-playback (`pos = 4200`, `dur = 10000`). -/
def soundMid : SoundObj :=
  { url := "https://x/b.mp3", pos := 4200, dur := 10000, playing := true }

/-- A held and loaded sound playing mid-track: concrete input for `stop`. -/
def worldMid : World :=
  { sound := some 0, isPlaying := true, isLoading := false, position := 4200,
    duration := 10000, error := none, objs := [(0, soundMid)], nextId := 1,
    pending := [], effectSound := some 0, intervalActive := true,
    depPlaying := true, depSound := some 0, mounted := true }

end TuneTalez

namespace TuneTalez

/-! ## Resolver lemmas -/

/-- Everything the resolver builds on the public base starts with `"http"`. -/
theorem strStartsWith_base (s : String) :
    strStartsWith (R2_PUBLIC_URL ++ "/" ++ s) "http" = true := rfl

/-- A base-resolved URL is never the empty string. -/
theorem base_ne_empty (s : String) : R2_PUBLIC_URL ++ "/" ++ s ≠ "" := by
  intro h
  have h2 := strStartsWith_base s
  rw [h] at h2
  exact absurd h2 (by decide)

/-- The audio-bucket path never starts with `"http"`. -/
theorem strStartsWith_bucket_audio (s : String) :
    strStartsWith (R2_AUDIO_BUCKET ++ "/" ++ s) "http" = false := rfl

/-- The thumbnails-bucket path never starts with `"http"`. -/
theorem strStartsWith_bucket_thumbnails (s : String) :
    strStartsWith (R2_BUCKET_THUMBNAILS ++ "/" ++ s) "http" = false := rfl

/-- The images-bucket path never starts with `"http"`. -/
theorem strStartsWith_bucket_images (s : String) :
    strStartsWith (R2_BUCKET_IMAGES ++ "/" ++ s) "http" = false := rfl

/-- The pdfs-bucket path never starts with `"http"`. -/
theorem strStartsWith_bucket_pdfs (s : String) :
    strStartsWith (R2_BUCKET_PDFS ++ "/" ++ s) "http" = false := rfl

/-- A reference starting with `"http"` is non-empty. -/
theorem ne_empty_of_startsWith_http {u : String} (h : strStartsWith u "http" = true) :
    u ≠ "" := by
  intro he
  rw [he] at h
  exact absurd h (by decide)

/-! ## Sound-map lemmas -/

/-- Updating key `k` rewrites exactly the binding of `k`, when present. -/
theorem lookupSound_setSoundObj (k : Nat) (o' : SoundObj) (l : List (Nat × SoundObj)) :
    lookupSound k (setSoundObj k o' l) = (lookupSound k l).map (fun _ => o') := by
  induction l with
  | nil => rfl
  | cons p rest ih =>
    obtain ⟨k2, o2⟩ := p
    by_cases hk : k2 = k
    · simp [lookupSound, setSoundObj, hk]
    · simp [lookupSound, setSoundObj, hk, ih]

/-! ## Controller-frame lemmas

No action of the component except teardown touches `mounted`, the polling
interval, or its registered deps; those are owned by `commitPoll` and
`unmountAct`. -/

theorem ctlFrame_refl (w : World) : ctlFrame w w := ⟨rfl, rfl, rfl, rfl⟩

theorem ctlFrame_trans {a b c : World} (h1 : ctlFrame a b) (h2 : ctlFrame b c) :
    ctlFrame a c :=
  ⟨h2.1.trans h1.1, h2.2.1.trans h1.2.1, h2.2.2.1.trans h1.2.2.1, h2.2.2.2.trans h1.2.2.2⟩

theorem ctlFrame_onStatusLoaded (p d : Nat) (pl : Bool) (w : World) :
    ctlFrame w (onStatusLoaded p d pl w) := ⟨rfl, rfl, rfl, rfl⟩

theorem ctlFrame_onStatusError (m : String) (w : World) :
    ctlFrame w (onStatusError m w) := ⟨rfl, rfl, rfl, rfl⟩

theorem ctlFrame_fireStatus (sid : Nat) (w : World) : ctlFrame w (fireStatus sid w) := by
  unfold fireStatus
  split <;> exact ⟨rfl, rfl, rfl, rfl⟩

theorem ctlFrame_playAsync {sid : Nat} {w w' : World} (h : playAsync sid w = some w') :
    ctlFrame w w' := by
  unfold playAsync at h
  split at h
  · exact absurd h (by simp)
  · cases h
    exact ctlFrame_trans (⟨rfl, rfl, rfl, rfl⟩ : ctlFrame w _) (ctlFrame_fireStatus sid _)

theorem ctlFrame_pauseAsync {sid : Nat} {w w' : World} (h : pauseAsync sid w = some w') :
    ctlFrame w w' := by
  unfold pauseAsync at h
  split at h
  · exact absurd h (by simp)
  · cases h
    exact ctlFrame_trans (⟨rfl, rfl, rfl, rfl⟩ : ctlFrame w _) (ctlFrame_fireStatus sid _)

theorem ctlFrame_stopAsync {sid : Nat} {w w' : World} (h : stopAsync sid w = some w') :
    ctlFrame w w' := by
  unfold stopAsync at h
  split at h
  · exact absurd h (by simp)
  · cases h
    exact ctlFrame_trans (⟨rfl, rfl, rfl, rfl⟩ : ctlFrame w _) (ctlFrame_fireStatus sid _)

theorem ctlFrame_setPositionAsync {sid p : Nat} {w w' : World}
    (h : setPositionAsync sid p w = some w') : ctlFrame w w' := by
  unfold setPositionAsync at h
  split at h
  · exact absurd h (by simp)
  · cases h
    exact ctlFrame_trans (⟨rfl, rfl, rfl, rfl⟩ : ctlFrame w _) (ctlFrame_fireStatus sid _)

theorem ctlFrame_startLoad (u : String) (w : World) : ctlFrame w (startLoad u w) := by
  simp only [startLoad]
  split <;> exact ⟨rfl, rfl, rfl, rfl⟩

theorem ctlFrame_effectCleanup (w : World) : ctlFrame w (effectCleanup w) := by
  unfold effectCleanup
  split <;> exact ⟨rfl, rfl, rfl, rfl⟩

theorem ctlFrame_changeUrlAct (u : String) (w : World) : ctlFrame w (changeUrlAct u w) := by
  simp only [changeUrlAct]
  exact ctlFrame_trans
    (ctlFrame_trans (ctlFrame_effectCleanup w) ⟨rfl, rfl, rfl, rfl⟩)
    (ctlFrame_startLoad u _)

theorem ctlFrame_finishLoadAct (i : Nat) (res : Option Nat) (w : World) :
    ctlFrame w (finishLoadAct i res w) := by
  simp only [finishLoadAct]
  split
  · exact ctlFrame_refl w
  · split <;> exact ⟨rfl, rfl, rfl, rfl⟩

theorem ctlFrame_togglePlayPause (w : World) : ctlFrame w (togglePlayPause w) := by
  simp only [togglePlayPause]
  split
  · exact ctlFrame_refl w
  · split
    · rename_i w2 hatt
      split at hatt
      · exact ctlFrame_pauseAsync hatt
      · split at hatt
        · obtain ⟨w1, h1, h2⟩ := Option.bind_eq_some.1 hatt
          exact ctlFrame_trans (ctlFrame_setPositionAsync h1) (ctlFrame_playAsync h2)
        · exact ctlFrame_playAsync hatt
    · exact ⟨rfl, rfl, rfl, rfl⟩

theorem ctlFrame_stopAudio (w : World) : ctlFrame w (stopAudio w) := by
  simp only [stopAudio]
  split
  · exact ctlFrame_refl w
  · split
    · rename_i w2 hatt
      obtain ⟨w1, h1, h2⟩ := Option.bind_eq_some.1 hatt
      exact ctlFrame_trans (ctlFrame_stopAsync h1) (ctlFrame_setPositionAsync h2)
    · exact ctlFrame_refl w

theorem ctlFrame_restartAudio (w : World) : ctlFrame w (restartAudio w) := by
  simp only [restartAudio]
  split
  · exact ctlFrame_refl w
  · split
    · rename_i w2 hatt
      obtain ⟨w1, h1, h2⟩ := Option.bind_eq_some.1 hatt
      refine ctlFrame_trans (ctlFrame_setPositionAsync h1) ?_
      split at h2
      · cases h2
        exact ctlFrame_refl _
      · exact ctlFrame_playAsync h2
    · exact ctlFrame_refl w

theorem ctlFrame_act (e : Ev) (w : World) (h : e ≠ Ev.unmount) : ctlFrame w (act e w) := by
  cases e with
  | changeUrl u => exact ctlFrame_changeUrlAct u w
  | unmount => exact absurd rfl h
  | finishLoad i res => exact ctlFrame_finishLoadAct i res w
  | statusLoaded p d pl => exact ctlFrame_onStatusLoaded p d pl w
  | statusError m => exact ctlFrame_onStatusError m w
  | toggle => exact ctlFrame_togglePlayPause w
  | stopBtn => exact ctlFrame_stopAudio w
  | restartBtn => exact ctlFrame_restartAudio w

/-! ## The polling invariant -/

theorem pollInv_commitPoll {w : World} (hm : w.mounted = true)
    (hiv : w.intervalActive = w.depPlaying) : PollInv (commitPoll w) := by
  unfold commitPoll PollInv
  split
  · refine ⟨fun _ => ⟨rfl, rfl, rfl⟩, fun hf => ?_⟩
    have hf2 : w.mounted = false := hf
    rw [hm] at hf2
    exact Bool.noConfusion hf2
  · rename_i hne
    rw [not_or, not_ne_iff, not_ne_iff] at hne
    exact ⟨fun _ => ⟨hiv, hne.1.symm, hne.2.symm⟩,
      fun hf => absurd (hm.symm.trans hf) (by decide)⟩

theorem unmountAct_mounted (w : World) : (unmountAct w).mounted = false := rfl

theorem unmountAct_intervalActive (w : World) : (unmountAct w).intervalActive = false := rfl

theorem pollInv_step {w : World} (e : Ev) (h : PollInv w) : PollInv (step e w) := by
  unfold step
  split
  · rename_i hmt
    have hm : w.mounted = true := by
      revert hmt
      cases w.mounted <;> simp
    split
    · rename_i hmt1
      by_cases he : e = Ev.unmount
      · subst he
        have : (act Ev.unmount w).mounted = true := by
          revert hmt1
          cases hmw : (act Ev.unmount w).mounted <;> simp
        rw [show act Ev.unmount w = unmountAct w from rfl, unmountAct_mounted] at this
        exact Bool.noConfusion this
      · have hf := ctlFrame_act e w he
        exact pollInv_commitPoll (hf.1.trans hm)
          ((hf.2.2.2.trans (h.1 hm).1).trans hf.2.1.symm)
    · rename_i hmt1
      have hm1 : (act e w).mounted = false := by
        revert hmt1
        cases hmw : (act e w).mounted <;> simp
      by_cases he : e = Ev.unmount
      · subst he
        exact ⟨fun ht => absurd (hm1.symm.trans ht) (by decide),
          fun _ => unmountAct_intervalActive w⟩
      · have hf := ctlFrame_act e w he
        rw [hf.1, hm] at hm1
        exact Bool.noConfusion hm1
  · exact h

theorem pollInv_mountWorld (u : String) : PollInv (mountWorld u) :=
  pollInv_commitPoll rfl rfl

theorem pollInv_foldl (es : List Ev) :
    ∀ w : World, PollInv w → PollInv (es.foldl (fun w e => step e w) w) := by
  induction es with
  | nil => exact fun _ h => h
  | cons e rest ih => exact fun w h => ih _ (pollInv_step e h)

theorem pollInv_run (u : String) (es : List Ev) : PollInv (run u es) :=
  pollInv_foldl es _ (pollInv_mountWorld u)

/-! ## C3 -/

/-- C3, counterexample: a native error status arriving during playback sets
the error state (`PlaybackState = Error`) but leaves `isPlaying` true, so the
1-second polling interval keeps running while the component shows the error
view — the claim that the poll is never active outside `Playing` fails. -/
theorem c3_poll_active_in_error_state :
    (run "u" [Ev.finishLoad 0 (some 100), Ev.toggle, Ev.statusError "boom"]).error =
        some "Playback error: boom" ∧
      (run "u" [Ev.finishLoad 0 (some 100), Ev.toggle, Ev.statusError "boom"]).isPlaying =
          true ∧
        (run "u" [Ev.finishLoad 0 (some 100), Ev.toggle,
            Ev.statusError "boom"]).intervalActive = true := by
  refine ⟨by decide, by decide, by decide⟩

/-- C3, amended: after every event of a run the polling interval is active if
and only if the component is still mounted and `isPlaying` is true (the dep
array of the polling effect is `[isPlaying, sound]`, and the unmount cleanup
clears the interval); since the error state does not clear `isPlaying`, the
interval can be active in the error state. -/
theorem c3_poll_active_iff_playing (u : String) (es : List Ev) :
    (run u es).intervalActive = ((run u es).mounted && (run u es).isPlaying) := by
  have h := pollInv_run u es
  cases hm : (run u es).mounted with
  | false => rw [Bool.false_and]; exact h.2 hm
  | true =>
    rw [Bool.true_and]
    exact ((h.1 hm).1.trans (h.1 hm).2.1)

/-! ## C1 -/

/-- Commit lemma: `commitPoll` touches only the polling bookkeeping, never the held sound. -/
theorem heldUrl_commitPoll (w : World) : heldUrl (commitPoll w) = heldUrl w := by
  unfold commitPoll
  split <;> rfl

/-- Running one more event is one more step. -/
theorem run_append_one (u : String) (es : List Ev) (e : Ev) :
    run u (es ++ [e]) = step e (run u es) := by
  simp [run, List.foldl_append]

/-- C1, counterexample: `load(u1)` then `load(u2)` issued without awaiting;
`u2`'s `createAsync` resolves first and `u1`'s stale success arrives last.
There is no request-token guard in `loadSound`, so the stale result is *not*
discarded: the held sound ends up being `u1`'s, not `u2`'s. -/
theorem c1_stale_load_observed :
    heldUrl (run "u1" [Ev.changeUrl "u2", Ev.finishLoad 1 (some 7),
        Ev.finishLoad 0 (some 5)]) = some "u1" ∧
      heldUrl (run "u1" [Ev.changeUrl "u2", Ev.finishLoad 1 (some 7),
          Ev.finishLoad 0 (some 5)]) ≠ some "u2" := by
  refine ⟨by decide, by decide⟩

/-- C1, amended: the result of the load whose successful completion is
*processed last* becomes the held sound — every successful `createAsync`
resolution installs its own sound unconditionally, so completion order, not
issue order, decides which load's result is observed. -/
theorem c1_last_completed_load_wins (u : String) (es : List Ev) (i : Nat) (uu : String)
    (cap : Option Nat) (d : Nat) (hm : (run u es).mounted = true)
    (hp : (run u es).pending.get? i = some (uu, cap)) :
    heldUrl (run u (es ++ [Ev.finishLoad i (some d)])) = some uu := by
  rw [run_append_one]
  have hact : act (Ev.finishLoad i (some d)) (run u es) = onStatusLoaded 0 d false
      { run u es with
        pending := (run u es).pending.eraseIdx i,
        objs := ((run u es).nextId,
          { url := uu, pos := 0, dur := d, playing := false }) :: (run u es).objs,
        sound := some (run u es).nextId,
        nextId := (run u es).nextId + 1,
        isLoading := false } := by
    show finishLoadAct i (some d) (run u es) = _
    unfold finishLoadAct
    rw [hp]
  unfold step
  rw [if_pos (by rw [hm])]
  rw [hact]
  rw [if_pos (by exact hm)]
  rw [heldUrl_commitPoll]
  simp [heldUrl, onStatusLoaded, lookupSound]

/-- C1, witness: the amended theorem at a singleton pending load. -/
theorem c1_last_completed_load_wins_witness :
    heldUrl (run "u1" [Ev.finishLoad 0 (some 5)]) = some "u1" :=
  c1_last_completed_load_wins "u1" [] 0 "u1" none 5 (by decide) (by decide)

/-! ## C2 -/

/-- C2: the code leaks the decoder resource and can hold two at once. After a
mount whose load completes, unmount runs the effect cleanup with the `sound`
value captured at the mount render (`null`), so `unloadAsync` is never called
and the loaded sound survives teardown; and when a second `load` is issued
before the first resolves, both `createAsync` results stay loaded
simultaneously. -/
theorem c2_resource_leaked_on_teardown :
    ((run "u" [Ev.finishLoad 0 (some 10000), Ev.unmount]).mounted = false ∧
        (run "u" [Ev.finishLoad 0 (some 10000), Ev.unmount]).objs ≠ []) ∧
      ((lookupSound 0 (run "u1" [Ev.changeUrl "u2", Ev.finishLoad 0 (some 5),
            Ev.finishLoad 0 (some 7)]).objs).isSome = true ∧
        (lookupSound 1 (run "u1" [Ev.changeUrl "u2", Ev.finishLoad 0 (some 5),
            Ev.finishLoad 0 (some 7)]).objs).isSome = true) := by
  refine ⟨⟨by decide, by decide⟩, by decide, by decide⟩

/-! ## C4 -/

/-- C4: with a resource held and loaded, pressing play (`togglePlayPause`
while not playing) at end of track (`position ≥ duration > 0`) seeks to 0 and
starts playback, so the snapshot reads `position = 0`, `isPlaying = true`;
otherwise (`position < duration` or duration unknown) it starts playback
without seeking — the engine object keeps its position. -/
theorem c4_replay_on_finish (w : World) (sid : Nat) (o : SoundObj)
    (hs : w.sound = some sid) (ho : lookupSound sid w.objs = some o)
    (hpl : w.isPlaying = false) :
    (w.position ≥ w.duration → 0 < w.duration →
        (togglePlayPause w).position = 0 ∧ (togglePlayPause w).isPlaying = true) ∧
      (w.position < w.duration ∨ w.duration = 0 →
        (togglePlayPause w).isPlaying = true ∧
          (togglePlayPause w).position = o.pos ∧
            lookupSound sid (togglePlayPause w).objs = some { o with playing := true }) := by
  constructor
  · intro hpos hdur
    have hcond : w.position ≥ w.duration ∧ 0 < w.duration := ⟨hpos, hdur⟩
    simp [togglePlayPause, hs, hpl, hcond, setPositionAsync, playAsync, fireStatus, ho,
      lookupSound_setSoundObj, onStatusLoaded]
  · intro hc
    have hcond : ¬(w.position ≥ w.duration ∧ 0 < w.duration) := by
      rcases hc with h | h <;> omega
    simp [togglePlayPause, hs, hpl, hcond, playAsync, fireStatus, ho,
      lookupSound_setSoundObj, onStatusLoaded]

/-- C4, witness: the theorem at a concrete end-of-track world. -/
theorem c4_replay_on_finish_witness :
    (togglePlayPause worldAtEnd).position = 0 ∧ (togglePlayPause worldAtEnd).isPlaying = true :=
  (c4_replay_on_finish worldAtEnd 0 soundAtEnd rfl rfl rfl).1 (by decide) (by decide)

/-! ## C5 -/

/-- C5: with a resource held and loaded, `stopAudio` halts playback and
resets the position snapshot to 0, while the sound stays held and loaded
(`Ready`, not `Idle`) — stop never releases the resource — and the error
state is untouched. -/
theorem c5_stop_keeps_resource (w : World) (sid : Nat) (o : SoundObj)
    (hs : w.sound = some sid) (ho : lookupSound sid w.objs = some o) :
    (stopAudio w).position = 0 ∧ (stopAudio w).isPlaying = false ∧
      (stopAudio w).sound = some sid ∧
        lookupSound sid (stopAudio w).objs = some { o with pos := 0, playing := false } ∧
          (stopAudio w).error = w.error := by
  simp [stopAudio, hs, stopAsync, setPositionAsync, fireStatus, ho,
    lookupSound_setSoundObj, onStatusLoaded]

/-- C5, witness: the theorem at a concrete mid-playback world. -/
theorem c5_stop_keeps_resource_witness :
    (stopAudio worldMid).position = 0 ∧ (stopAudio worldMid).isPlaying = false ∧
      (stopAudio worldMid).sound = some 0 ∧
        lookupSound 0 (stopAudio worldMid).objs =
            some { soundMid with pos := 0, playing := false } ∧
          (stopAudio worldMid).error = worldMid.error :=
  c5_stop_keeps_resource worldMid 0 soundMid rfl rfl

/-! ## C6 -/

/-- C6: loading an unloadable URL from a fresh player resolves the catch
branch: the state becomes `Error("Failed to load audio")` with no sound held
(the model's `finishLoadAct` is total — no exception crosses the engine
boundary), and a subsequent play press is a silent no-op that changes no
state. -/
theorem c6_load_failure_then_play_noop :
    (run "bad-url" [Ev.finishLoad 0 none]).error = some "Failed to load audio" ∧
      (run "bad-url" [Ev.finishLoad 0 none]).sound = none ∧
        (run "bad-url" [Ev.finishLoad 0 none]).isLoading = false ∧
          togglePlayPause (run "bad-url" [Ev.finishLoad 0 none]) =
              run "bad-url" [Ev.finishLoad 0 none] ∧
            step Ev.toggle (run "bad-url" [Ev.finishLoad 0 none]) =
                run "bad-url" [Ev.finishLoad 0 none] := by
  refine ⟨by decide, by decide, by decide, by decide, by decide⟩

/-! ## C7 -/

/-- C7, counterexample: the claim says every reference that already has a URI
scheme is returned unchanged, but the code only tests for the literal prefix
`"http"`; `"file://a.mp3"` has a URI scheme yet is rewritten into the audio
bucket. -/
theorem c7_scheme_not_preserved :
    hasUriScheme "file://a.mp3" = true ∧
      processAudioUrl (some "file://a.mp3") ≠ some "file://a.mp3" := by
  constructor
  · decide
  · decide

/-- C7, amended: every reference that starts with `"http"` is returned
unchanged by each of the four resolvers, and each resolver is idempotent
(`resolve(category, resolve(category, u)) = resolve(category, u)` for every
input, including the absent/empty cases). -/
theorem c7_http_unchanged_and_idempotent (u : String) (x : Option String) :
    (strStartsWith u "http" = true →
        processAudioUrl (some u) = some u ∧ processThumbnailUrl (some u) = u ∧
          processImageUrl (some u) = u ∧ processPdfUrl (some u) = some u) ∧
      processAudioUrl (processAudioUrl x) = processAudioUrl x ∧
        processThumbnailUrl (some (processThumbnailUrl x)) = processThumbnailUrl x ∧
          processImageUrl (some (processImageUrl x)) = processImageUrl x ∧
            processPdfUrl (processPdfUrl x) = processPdfUrl x := by
  have hfix : ∀ v : String, strStartsWith v "http" = true →
      processAudioUrl (some v) = some v ∧ processThumbnailUrl (some v) = v ∧
        processImageUrl (some v) = v ∧ processPdfUrl (some v) = some v := by
    intro v hv
    have hne : v ≠ "" := ne_empty_of_startsWith_http hv
    simp [processAudioUrl, processThumbnailUrl, processImageUrl, processPdfUrl, hne, hv]
  refine ⟨hfix u, ?_, ?_, ?_, ?_⟩
  · match x with
    | none => rfl
    | some v =>
      by_cases hne : v = ""
      · simp [processAudioUrl, hne]
      by_cases hv : strStartsWith v "http" = true
      · simp [processAudioUrl, hne, hv]
      · have h1 : processAudioUrl (some v) =
            some (R2_PUBLIC_URL ++ "/" ++ (R2_AUDIO_BUCKET ++ "/" ++ v)) := by
          simp [processAudioUrl, hne, hv, getAudioUrl, getR2PublicUrl,
            strStartsWith_bucket_audio]
        rw [h1]
        exact (hfix _ (strStartsWith_base _)).1
  · match x with
    | none =>
      exact (hfix "https://via.placeholder.com/150x200/333333/FFFFFF?text=No+Cover"
        (by decide)).2.1
    | some v =>
      by_cases hne : v = ""
      · subst hne
        exact (hfix "https://via.placeholder.com/150x200/333333/FFFFFF?text=No+Cover"
          (by decide)).2.1
      by_cases hv : strStartsWith v "http" = true
      · simp [processThumbnailUrl, hne, hv]
      · have h1 : processThumbnailUrl (some v) =
            R2_PUBLIC_URL ++ "/" ++ (R2_BUCKET_THUMBNAILS ++ "/" ++ v) := by
          simp [processThumbnailUrl, hne, hv, getThumbnailUrl, getR2PublicUrl,
            strStartsWith_bucket_thumbnails]
        rw [h1]
        exact (hfix _ (strStartsWith_base _)).2.1
  · match x with
    | none =>
      exact (hfix "https://via.placeholder.com/400x300/333333/FFFFFF?text=No+Image"
        (by decide)).2.2.1
    | some v =>
      by_cases hne : v = ""
      · subst hne
        exact (hfix "https://via.placeholder.com/400x300/333333/FFFFFF?text=No+Image"
          (by decide)).2.2.1
      by_cases hv : strStartsWith v "http" = true
      · simp [processImageUrl, hne, hv]
      · have h1 : processImageUrl (some v) =
            R2_PUBLIC_URL ++ "/" ++ (R2_BUCKET_IMAGES ++ "/" ++ v) := by
          simp [processImageUrl, hne, hv, getImageUrl, getR2PublicUrl,
            strStartsWith_bucket_images]
        rw [h1]
        exact (hfix _ (strStartsWith_base _)).2.2.1
  · match x with
    | none => rfl
    | some v =>
      by_cases hne : v = ""
      · simp [processPdfUrl, hne]
      by_cases hv : strStartsWith v "http" = true
      · simp [processPdfUrl, hne, hv]
      · have h1 : processPdfUrl (some v) =
            some (R2_PUBLIC_URL ++ "/" ++ (R2_BUCKET_PDFS ++ "/" ++ v)) := by
          simp [processPdfUrl, hne, hv, getPdfUrl, getR2PublicUrl,
            strStartsWith_bucket_pdfs]
        rw [h1]
        exact (hfix _ (strStartsWith_base _)).2.2.2

/-- C7, witness: the amended theorem at `u = "http://x/a.mp3"`,
`x = some "a.mp3"`. -/
theorem c7_http_unchanged_and_idempotent_witness :
    processAudioUrl (some "http://x/a.mp3") = some "http://x/a.mp3" ∧
      processAudioUrl (processAudioUrl (some "a.mp3")) = processAudioUrl (some "a.mp3") :=
  ⟨((c7_http_unchanged_and_idempotent "http://x/a.mp3" (some "a.mp3")).1 (by decide)).1,
    (c7_http_unchanged_and_idempotent "http://x/a.mp3" (some "a.mp3")).2.1⟩

/-! ## C8 -/

/-- C8, counterexample: `"httpfoo.mp3"` is non-empty and has no URI scheme,
yet the resolver returns it unchanged (it happens to start with the literal
`"http"`) instead of joining it onto the base and bucket as the claim
requires. -/
theorem c8_bare_http_like_not_joined :
    ("httpfoo.mp3" : String) ≠ "" ∧ hasUriScheme "httpfoo.mp3" = false ∧
      processAudioUrl (some "httpfoo.mp3") = some "httpfoo.mp3" ∧
        processAudioUrl (some "httpfoo.mp3") ≠
          some (R2_PUBLIC_URL ++ "/" ++ (R2_AUDIO_BUCKET ++ "/" ++ "httpfoo.mp3")) := by
  refine ⟨by decide, by decide, by decide, by decide⟩

/-- C8, amended: every non-empty reference that does not start with `"http"`
is resolved to the fixed public base joined with the category-specific bucket
segment and the reference, for each of the four categories. -/
theorem c8_bare_reference_joined (u : String) (hne : u ≠ "")
    (hh : strStartsWith u "http" = false) :
    processAudioUrl (some u) = some (R2_PUBLIC_URL ++ "/" ++ (R2_AUDIO_BUCKET ++ "/" ++ u)) ∧
      processThumbnailUrl (some u) = R2_PUBLIC_URL ++ "/" ++ (R2_BUCKET_THUMBNAILS ++ "/" ++ u) ∧
        processImageUrl (some u) = R2_PUBLIC_URL ++ "/" ++ (R2_BUCKET_IMAGES ++ "/" ++ u) ∧
          processPdfUrl (some u) = some (R2_PUBLIC_URL ++ "/" ++ (R2_BUCKET_PDFS ++ "/" ++ u)) := by
  refine ⟨?_, ?_, ?_, ?_⟩
  · simp [processAudioUrl, hne, hh, getAudioUrl, getR2PublicUrl, strStartsWith_bucket_audio]
  · simp [processThumbnailUrl, hne, hh, getThumbnailUrl, getR2PublicUrl,
      strStartsWith_bucket_thumbnails]
  · simp [processImageUrl, hne, hh, getImageUrl, getR2PublicUrl, strStartsWith_bucket_images]
  · simp [processPdfUrl, hne, hh, getPdfUrl, getR2PublicUrl, strStartsWith_bucket_pdfs]

/-- C8, witness: the amended theorem at `u = "a.mp3"`. -/
theorem c8_bare_reference_joined_witness :
    processAudioUrl (some "a.mp3") =
      some (R2_PUBLIC_URL ++ "/" ++ (R2_AUDIO_BUCKET ++ "/" ++ "a.mp3")) :=
  (c8_bare_reference_joined "a.mp3" (by decide) (by decide)).1

/-! ## C9 -/

/-- C9: on an absent (`undefined`) or empty reference, the audio and PDF
resolvers return `undefined` (nothing playable) while the thumbnail and image
resolvers return their fixed category-specific placeholder URLs. -/
theorem c9_absent_reference_defaults :
    processAudioUrl none = none ∧ processAudioUrl (some "") = none ∧
      processPdfUrl none = none ∧ processPdfUrl (some "") = none ∧
        processThumbnailUrl none =
            "https://via.placeholder.com/150x200/333333/FFFFFF?text=No+Cover" ∧
          processThumbnailUrl (some "") =
              "https://via.placeholder.com/150x200/333333/FFFFFF?text=No+Cover" ∧
            processImageUrl none =
                "https://via.placeholder.com/400x300/333333/FFFFFF?text=No+Image" ∧
              processImageUrl (some "") =
                  "https://via.placeholder.com/400x300/333333/FFFFFF?text=No+Image" := by
  refine ⟨rfl, by decide, rfl, by decide, rfl, by decide, rfl, by decide⟩

/-! ## C10 -/

/-- C10: `processBookUrls` rewrites only `thumbnailUrl` and `audioUrl`; every
other field of the book record is returned identically. -/
theorem c10_processBookUrls_frame (b : Book) :
    (processBookUrls b).id = b.id ∧ (processBookUrls b).title = b.title ∧
      (processBookUrls b).author = b.author ∧
        (processBookUrls b).description = b.description ∧
          (processBookUrls b).content = b.content ∧
            (processBookUrls b).createdAt = b.createdAt ∧
              (processBookUrls b).updatedAt = b.updatedAt ∧
                (processBookUrls b).tags = b.tags ∧
                  (processBookUrls b).category = b.category ∧
                    (processBookUrls b).likes = b.likes ∧
                      (processBookUrls b).saves = b.saves ∧
                        (processBookUrls b).isPublished = b.isPublished ∧
                          (processBookUrls b).isDeleted = b.isDeleted ∧
                            (processBookUrls b).userId = b.userId ∧
                              (processBookUrls b).readCount = b.readCount ∧
                                (processBookUrls b).status = b.status :=
  ⟨rfl, rfl, rfl, rfl, rfl, rfl, rfl, rfl, rfl, rfl, rfl, rfl, rfl, rfl, rfl, rfl⟩

end TuneTalez
